import Mathlib

/-!
Shallow embedding of the repmgrd daemon core (repmgrd.c): the failover
state machine dispatched by the standby monitor, the election engine,
the best-candidate poll, the bounded reconnection policy, and the role
monitor loop.  External effects (database queries, peer connections,
the shell promote command, rand()) are modelled as explicit oracle
inputs; each embedded function returns its result together with the
observable actions it performs, so that theorems can speak about which
side effects occur on which paths.
-/

namespace Repmgrd

/-- Connection status of a libpq handle, as inspected via PQstatus.
Only CONNECTION_OK is ever tested by repmgrd.c; every other libpq
status is collapsed into CONNECTION_BAD. -/
inductive ConnStatus
  | CONNECTION_OK
  | CONNECTION_BAD
  deriving DecidableEq, Repr

/-- NodeStatus enum from repmgrd.c. -/
inductive NodeStatus
  | NODE_STATUS_UNKNOWN
  | NODE_STATUS_UP
  | NODE_STATUS_DOWN
  deriving DecidableEq, Repr

/-- FailoverState enum from repmgrd.c. -/
inductive FailoverState
  | FAILOVER_STATE_UNKNOWN
  | FAILOVER_STATE_NONE
  | FAILOVER_STATE_PROMOTED
  | FAILOVER_STATE_PROMOTION_FAILED
  | FAILOVER_STATE_PRIMARY_REAPPEARED
  | FAILOVER_STATE_LOCAL_NODE_FAILURE
  | FAILOVER_STATE_WAITING_NEW_PRIMARY
  | FAILOVER_STATE_FOLLOWED_NEW_PRIMARY
  | FAILOVER_STATE_FOLLOWING_ORIGINAL_PRIMARY
  | FAILOVER_STATE_NO_NEW_PRIMARY
  | FAILOVER_STATE_FOLLOW_FAIL
  | FAILOVER_STATE_NODE_NOTIFICATION_ERROR
  deriving DecidableEq, Repr

/-- ElectionResult enum from repmgrd.c. -/
inductive ElectionResult
  | ELECTION_NOT_CANDIDATE
  | ELECTION_WON
  | ELECTION_LOST
  deriving DecidableEq, Repr

/-- NodeVotingStatus values (voting.h), as read by get_voting_status. -/
inductive NodeVotingStatus
  | VS_NO_VOTE
  | VS_VOTE_REQUEST_RECEIVED
  | VS_VOTE_INITIATED
  | VS_UNKNOWN
  deriving DecidableEq, Repr

/-- The closed vocabulary of event names written via create_event_record
from the paths modelled here. -/
inductive EventName
  | repmgrd_start
  | repmgrd_local_disconnect
  | repmgrd_local_reconnect
  | repmgrd_failover_promote
  | repmgrd_failover_follow
  | repmgrd_failover_abort
  deriving DecidableEq, Repr

/-- The fields of t_node_info consulted by the election engine and the
best-candidate poll, together with per-node oracle fields describing
how the node's database answers during the election:
conn_ok is the PQstatus outcome of establish_db_connection on the
node's conninfo, accepts_candidature the boolean returned by
announce_candidature, grants_vote whether request_vote returns 1.
is_visible is the in-record scratch flag exactly as in the source. -/
structure t_node_info where
  node_id : Int
  priority : Int
  last_wal_receive_lsn : Nat
  is_visible : Bool := false
  conn_ok : Bool := true
  accepts_candidature : Bool := true
  grants_vote : Bool := true
  deriving DecidableEq, Repr

/-- One step of the if/else chain in the loop body of
poll_best_candidate (repmgrd.c lines 1092-1113), transcribed branch by
branch: note that in the source the node_id comparison is an
else-branch of the LSN comparison, so it is reached exactly when the
cell's LSN is strictly lower than the current best candidate's. -/
def poll_best_candidate_step (best cell : t_node_info) : t_node_info :=
  if cell.last_wal_receive_lsn > best.last_wal_receive_lsn then
    cell
  else if cell.last_wal_receive_lsn = best.last_wal_receive_lsn then
    if cell.priority > best.priority then cell else best
  else if cell.node_id < best.node_id then
    cell
  else
    best

/-- poll_best_candidate: fold of the loop body over the sibling list,
starting from the local node (best_candidate = &local_node_info). -/
def poll_best_candidate (local_node_info : t_node_info)
    (standby_nodes : List t_node_info) : t_node_info :=
  standby_nodes.foldl poll_best_candidate_step local_node_info

/-- The ordering stated by the spec for best-candidate selection:
node a is strictly preferred to node b when it has a strictly higher
last_wal_receive_lsn, or the same LSN and strictly higher priority, or
the same LSN and priority and a strictly lower node_id. -/
def spec_prefers (a b : t_node_info) : Prop :=
  b.last_wal_receive_lsn < a.last_wal_receive_lsn ∨
  (a.last_wal_receive_lsn = b.last_wal_receive_lsn ∧ b.priority < a.priority) ∨
  (a.last_wal_receive_lsn = b.last_wal_receive_lsn ∧ a.priority = b.priority ∧
   a.node_id < b.node_id)

instance (a b : t_node_info) : Decidable (spec_prefers a b) := by
  unfold spec_prefers; infer_instance

/-- Peer-directed operations performed by do_election, recorded so that
theorems can state which peers were contacted on which path. -/
inductive PeerOp
  | open_conn (node_id : Int)
  | announce_cand (node_id : Int)
  | request_vote_op (node_id : Int)
  deriving DecidableEq, Repr

/-- The candidature-announcement loop of do_election (repmgrd.c lines
1387-1423).  For each cell: is_visible is first set false; a connection
is opened (one open_conn op); an unreachable node is skipped; an
announce_candidature refusal sets other_node_is_candidate and breaks
out of the loop, leaving the remaining cells untouched; an accepted
announcement sets is_visible and increments visible_nodes.
Returns (updated list, visible increments, other_node_is_candidate,
peer ops in order). -/
def announce_loop : List t_node_info → List t_node_info × Nat × Bool × List PeerOp
  | [] => ([], 0, false, [])
  | s :: rest =>
      if s.conn_ok = false then
        let r := announce_loop rest
        ({ s with is_visible := false } :: r.1, r.2.1, r.2.2.1,
         PeerOp.open_conn s.node_id :: r.2.2.2)
      else if s.accepts_candidature = false then
        ({ s with is_visible := false } :: rest, 0, true,
         [PeerOp.open_conn s.node_id, PeerOp.announce_cand s.node_id])
      else
        let r := announce_loop rest
        ({ s with is_visible := true } :: r.1, r.2.1 + 1, r.2.2.1,
         PeerOp.open_conn s.node_id :: PeerOp.announce_cand s.node_id :: r.2.2.2)

/-- The vote-request loop of do_election (repmgrd.c lines 1446-1464):
invisible nodes are skipped; for each visible node request_vote adds
its 0/1 result to votes_for_me, and a node whose last_wal_receive_lsn
is strictly ahead of the local node's sets other_node_is_ahead.
Returns (votes from siblings, other_node_is_ahead, peer ops). -/
def vote_loop (local_lsn : Nat) : List t_node_info → Nat × Bool × List PeerOp
  | [] => (0, false, [])
  | s :: rest =>
      if s.is_visible = false then
        vote_loop local_lsn rest
      else
        let r := vote_loop local_lsn rest
        (r.1 + (if s.grants_vote then 1 else 0),
         (decide (local_lsn < s.last_wal_receive_lsn) || r.2.1),
         PeerOp.request_vote_op s.node_id :: r.2.2)

/-- Oracle inputs for one run of do_election: the answer of
get_voting_status on the local connection, the sibling records
returned by get_active_sibling_node_records (with their per-node
oracle fields), and the local node's last_wal_receive_lsn as read by
get_last_wal_receive_location. -/
structure ElectionInput where
  voting_status : NodeVotingStatus
  siblings : List t_node_info
  local_lsn : Nat
  deriving DecidableEq, Repr

/-- Result of one run of do_election together with its observable
actions.  claimed_candidacy records whether set_voting_status_initiated
was executed; reset_voting_status_called records whether the in-database
voting status was reset before returning - in the source the
unset_voting_status_initiated call on the withdrawal path is commented
out (marked XXX, repmgrd.c lines 1429-1430), so this field is false on
every path. -/
structure ElectionOutcome where
  result : ElectionResult
  sibling_votes : Nat
  votes_for_me : Nat
  visible_nodes : Nat
  other_node_is_ahead : Bool
  self_vote : Bool
  claimed_candidacy : Bool
  reset_voting_status_called : Bool
  peer_ops : List PeerOp
  deriving DecidableEq, Repr

/-- do_election (repmgrd.c lines 1314-1478), phase by phase:
vote-request-received check, set_voting_status_initiated, sibling
refresh with empty-list early WON, announcement loop with withdrawal
on a competing candidate, vote-request loop, self-vote when no visible
sibling is ahead, and the final unanimity test
votes_for_me == visible_nodes. -/
def do_election (inp : ElectionInput) : ElectionOutcome :=
  if inp.voting_status = NodeVotingStatus.VS_VOTE_REQUEST_RECEIVED then
    { result := ElectionResult.ELECTION_NOT_CANDIDATE, sibling_votes := 0,
      votes_for_me := 0, visible_nodes := 1, other_node_is_ahead := false,
      self_vote := false, claimed_candidacy := false,
      reset_voting_status_called := false, peer_ops := [] }
  else if inp.siblings.length = 0 then
    { result := ElectionResult.ELECTION_WON, sibling_votes := 0,
      votes_for_me := 0, visible_nodes := 1, other_node_is_ahead := false,
      self_vote := false, claimed_candidacy := true,
      reset_voting_status_called := false, peer_ops := [] }
  else
    let ares := announce_loop inp.siblings
    if ares.2.2.1 then
      { result := ElectionResult.ELECTION_NOT_CANDIDATE, sibling_votes := 0,
        votes_for_me := 0, visible_nodes := 1 + ares.2.1,
        other_node_is_ahead := false, self_vote := false,
        claimed_candidacy := true, reset_voting_status_called := false,
        peer_ops := ares.2.2.2 }
    else
      let vres := vote_loop inp.local_lsn ares.1
      let self_vote := !vres.2.1
      let total := vres.1 + (if self_vote then 1 else 0)
      { result := if total = 1 + ares.2.1 then ElectionResult.ELECTION_WON
                  else ElectionResult.ELECTION_LOST,
        sibling_votes := vres.1, votes_for_me := total,
        visible_nodes := 1 + ares.2.1, other_node_is_ahead := vres.2.1,
        self_vote := self_vote, claimed_candidacy := true,
        reset_voting_status_called := false,
        peer_ops := ares.2.2.2 ++ vres.2.2 }

/-- Jitter computed at the start of do_election (repmgrd.c line 1342):
rand_wait = ((rand() % 50) + 10) * 10000 microseconds, passed to
pg_usleep.  r models the nonnegative value returned by rand(). -/
def rand_wait (r : Nat) : Nat := ((r % 50) + 10) * 10000

/-- What the standby monitor does with control flow after the failover
switch statement (repmgrd.c lines 784-849). -/
inductive DispatchAction
  | return_to_role_monitor
  | resume_inner_loop
  deriving DecidableEq, Repr

/-- Observable outcome of the failover dispatch switch: whether
monitor_streaming_standby returns, the value left in the global
failover_state, and the target node id passed to notify_followers when
it is invoked. -/
structure DispatchResult where
  action : DispatchAction
  failover_state : FailoverState
  notify_followers_target : Option Int
  deriving DecidableEq, Repr

/-- The switch(failover_state) dispatch at the end of the failover
sequence in monitor_streaming_standby (repmgrd.c lines 784-849),
case by case.  PROMOTION_FAILED, LOCAL_NODE_FAILURE, UNKNOWN and NONE
merely break; NO_NEW_PRIMARY and WAITING_NEW_PRIMARY return without
resetting failover_state; FOLLOW_FAIL and NODE_NOTIFICATION_ERROR
have no case in the switch at all, so execution falls through with
failover_state unchanged and the inner loop resumes. -/
def failover_dispatch (fs : FailoverState)
    (local_node_id upstream_node_id : Int) : DispatchResult :=
  match fs with
  | FailoverState.FAILOVER_STATE_PROMOTED =>
      { action := DispatchAction.return_to_role_monitor,
        failover_state := FailoverState.FAILOVER_STATE_NONE,
        notify_followers_target := some local_node_id }
  | FailoverState.FAILOVER_STATE_PRIMARY_REAPPEARED =>
      { action := DispatchAction.return_to_role_monitor,
        failover_state := FailoverState.FAILOVER_STATE_NONE,
        notify_followers_target := some upstream_node_id }
  | FailoverState.FAILOVER_STATE_PROMOTION_FAILED =>
      { action := DispatchAction.resume_inner_loop,
        failover_state := FailoverState.FAILOVER_STATE_PROMOTION_FAILED,
        notify_followers_target := none }
  | FailoverState.FAILOVER_STATE_FOLLOWED_NEW_PRIMARY =>
      { action := DispatchAction.return_to_role_monitor,
        failover_state := FailoverState.FAILOVER_STATE_NONE,
        notify_followers_target := none }
  | FailoverState.FAILOVER_STATE_FOLLOWING_ORIGINAL_PRIMARY =>
      { action := DispatchAction.return_to_role_monitor,
        failover_state := FailoverState.FAILOVER_STATE_NONE,
        notify_followers_target := none }
  | FailoverState.FAILOVER_STATE_NO_NEW_PRIMARY =>
      { action := DispatchAction.return_to_role_monitor,
        failover_state := FailoverState.FAILOVER_STATE_NO_NEW_PRIMARY,
        notify_followers_target := none }
  | FailoverState.FAILOVER_STATE_WAITING_NEW_PRIMARY =>
      { action := DispatchAction.return_to_role_monitor,
        failover_state := FailoverState.FAILOVER_STATE_WAITING_NEW_PRIMARY,
        notify_followers_target := none }
  | FailoverState.FAILOVER_STATE_LOCAL_NODE_FAILURE =>
      { action := DispatchAction.resume_inner_loop,
        failover_state := FailoverState.FAILOVER_STATE_LOCAL_NODE_FAILURE,
        notify_followers_target := none }
  | FailoverState.FAILOVER_STATE_UNKNOWN =>
      { action := DispatchAction.resume_inner_loop,
        failover_state := FailoverState.FAILOVER_STATE_UNKNOWN,
        notify_followers_target := none }
  | FailoverState.FAILOVER_STATE_NONE =>
      { action := DispatchAction.resume_inner_loop,
        failover_state := FailoverState.FAILOVER_STATE_NONE,
        notify_followers_target := none }
  | FailoverState.FAILOVER_STATE_FOLLOW_FAIL =>
      { action := DispatchAction.resume_inner_loop,
        failover_state := FailoverState.FAILOVER_STATE_FOLLOW_FAIL,
        notify_followers_target := none }
  | FailoverState.FAILOVER_STATE_NODE_NOTIFICATION_ERROR =>
      { action := DispatchAction.resume_inner_loop,
        failover_state := FailoverState.FAILOVER_STATE_NODE_NOTIFICATION_ERROR,
        notify_followers_target := none }

/-- Oracle inputs for one run of promote_self (repmgrd.c lines
916-1040): exit status of the promote shell command, PQstatus of the
local connection after the command, PQstatus produced by the
re-established connection when the first is bad, and the connection
status and primary node id that get_primary_connection would yield,
plus the failed upstream's node id from its node record. -/
structure PromoteInput where
  promote_command_exit : Int
  local_conn_status_after : ConnStatus
  reconnect_status : ConnStatus
  discovered_primary_conn_status : ConnStatus
  discovered_primary_node_id : Int
  failed_primary_node_id : Int
  deriving DecidableEq, Repr

/-- Result of promote_self together with the event records it wrote. -/
structure PromoteOutcome where
  state : FailoverState
  events : List EventName
  deriving DecidableEq, Repr

/-- promote_self (repmgrd.c lines 916-1040): run the promote command;
re-establish the local connection if it dropped, returning
LOCAL_NODE_FAILURE if that fails; on non-zero exit, discover an
existing primary via get_primary_connection and, when it is reachable
and its node id equals the failed upstream's, record
repmgrd_failover_abort and return PRIMARY_REAPPEARED, otherwise return
PROMOTION_FAILED; on zero exit record repmgrd_failover_promote and
return PROMOTED. -/
def promote_self (inp : PromoteInput) : PromoteOutcome :=
  let conn_status :=
    if inp.local_conn_status_after ≠ ConnStatus.CONNECTION_OK then
      inp.reconnect_status
    else
      inp.local_conn_status_after
  if conn_status ≠ ConnStatus.CONNECTION_OK then
    { state := FailoverState.FAILOVER_STATE_LOCAL_NODE_FAILURE, events := [] }
  else if inp.promote_command_exit ≠ 0 then
    if inp.discovered_primary_conn_status = ConnStatus.CONNECTION_OK ∧
       inp.discovered_primary_node_id = inp.failed_primary_node_id then
      { state := FailoverState.FAILOVER_STATE_PRIMARY_REAPPEARED,
        events := [EventName.repmgrd_failover_abort] }
    else
      { state := FailoverState.FAILOVER_STATE_PROMOTION_FAILED, events := [] }
  else
    { state := FailoverState.FAILOVER_STATE_PROMOTED,
      events := [EventName.repmgrd_failover_promote] }

/-- Per-attempt oracle for try_reconnect: the outcome of the
is_server_available probe and, when probed successfully, the PQstatus
of the subsequently established connection. -/
structure ReconnectAttempt where
  server_available : Bool
  conn_ok : Bool
  deriving DecidableEq, Repr

/-- Observable timeline events of try_reconnect: liveness probes and
the sleep(1) separating attempts. -/
inductive ReconnectEvent
  | probe
  | sleep_one_second
  deriving DecidableEq, Repr

/-- max_attempts in try_reconnect (repmgrd.c line 1695). -/
def max_attempts : Nat := 5

/-- Number of probe events in a trace. -/
def count_probes : List ReconnectEvent → Nat
  | [] => 0
  | ReconnectEvent.probe :: rest => count_probes rest + 1
  | ReconnectEvent.sleep_one_second :: rest => count_probes rest

/-- True when no probe immediately follows another probe, i.e. every
pair of consecutive probes is separated by at least one sleep(1). -/
def probes_separated : List ReconnectEvent → Bool
  | ReconnectEvent.probe :: ReconnectEvent.probe :: _ => false
  | _ :: rest => probes_separated rest
  | [] => true

/-- The attempt loop of try_reconnect (repmgrd.c lines 1697-1717),
with the oracle indexed by attempt number and recursion on the number
of remaining attempts.  Each iteration probes is_server_available; on
a live probe it establishes a connection and returns it with UP if and
only if PQstatus is CONNECTION_OK; every iteration that does not
return ends with sleep(1).  After the loop the node status is set to
DOWN and NULL is returned. -/
def try_reconnect_from (oracle : Nat → ReconnectAttempt) (i : Nat) :
    Nat → Option ConnStatus × NodeStatus × List ReconnectEvent
  | 0 => (none, NodeStatus.NODE_STATUS_DOWN, [])
  | n + 1 =>
      let a := oracle i
      if a.server_available = true then
        if a.conn_ok = true then
          (some ConnStatus.CONNECTION_OK, NodeStatus.NODE_STATUS_UP,
           [ReconnectEvent.probe])
        else
          let r := try_reconnect_from oracle (i + 1) n
          (r.1, r.2.1,
           ReconnectEvent.probe :: ReconnectEvent.sleep_one_second :: r.2.2)
      else
        let r := try_reconnect_from oracle (i + 1) n
        (r.1, r.2.1,
         ReconnectEvent.probe :: ReconnectEvent.sleep_one_second :: r.2.2)

/-- try_reconnect: the loop run for max_attempts attempts starting at
attempt 0. -/
def try_reconnect (oracle : Nat → ReconnectAttempt) :
    Option ConnStatus × NodeStatus × List ReconnectEvent :=
  try_reconnect_from oracle 0 max_attempts

/-- The node types dispatched on by start_monitoring. -/
inductive NodeType
  | PRIMARY
  | STANDBY
  | BDR
  | WITNESS
  | UNKNOWN
  deriving DecidableEq, Repr

/-- Observable outcome of reset_node_voting_status: the value written
to failover_state and whether the database-side reset_voting_status
call was issued on the local connection. -/
structure ResetOutcome where
  failover_state : FailoverState
  db_reset_issued : Bool
  deriving DecidableEq, Repr

/-- reset_node_voting_status (repmgrd.c lines 1481-1492): failover_state
is set to FAILOVER_STATE_NONE unconditionally; if the local connection
is not CONNECTION_OK the function returns without touching the database,
otherwise it issues reset_voting_status on the local connection. -/
def reset_node_voting_status (local_conn_status : ConnStatus) : ResetOutcome :=
  if local_conn_status ≠ ConnStatus.CONNECTION_OK then
    { failover_state := FailoverState.FAILOVER_STATE_NONE,
      db_reset_issued := false }
  else
    { failover_state := FailoverState.FAILOVER_STATE_NONE,
      db_reset_issued := true }

/-- The monitoring function invoked by the switch in start_monitoring. -/
inductive MonitorDispatch
  | monitor_streaming_primary
  | monitor_streaming_standby
  | return_from_monitoring
  | fall_through
  deriving DecidableEq, Repr

/-- One iteration of the outer loop of start_monitoring (repmgrd.c
lines 443-465): reset_node_voting_status runs first, then the switch
on the local node's type selects the monitor to run (BDR and WITNESS
return from start_monitoring; UNKNOWN falls through). -/
def start_monitoring_iteration (local_conn_status : ConnStatus)
    (t : NodeType) : ResetOutcome × MonitorDispatch :=
  let r := reset_node_voting_status local_conn_status
  (r, match t with
      | NodeType.PRIMARY => MonitorDispatch.monitor_streaming_primary
      | NodeType.STANDBY => MonitorDispatch.monitor_streaming_standby
      | NodeType.BDR => MonitorDispatch.return_from_monitoring
      | NodeType.WITNESS => MonitorDispatch.return_from_monitoring
      | NodeType.UNKNOWN => MonitorDispatch.fall_through)

/-! Helper lemmas -/

theorem vote_loop_ahead_iff (local_lsn : Nat) (l : List t_node_info) :
    (vote_loop local_lsn l).2.1 = false ↔
      ∀ s ∈ l, s.is_visible = true → s.last_wal_receive_lsn ≤ local_lsn := by
  induction l with
  | nil => simp [vote_loop]
  | cons s rest ih =>
      cases hv : s.is_visible with
      | false => simp [vote_loop, hv, ih]
      | true =>
          simp [vote_loop, hv, ih, Bool.or_eq_false_iff,
                decide_eq_false_iff_not, Nat.not_lt, and_comm]

theorem announce_loop_visible_count (l : List t_node_info)
    (h : (announce_loop l).2.2.1 = false) :
    (announce_loop l).2.1 =
      List.countP (fun s => s.is_visible) (announce_loop l).1 := by
  induction l with
  | nil => simp [announce_loop]
  | cons s rest ih =>
      cases hc : s.conn_ok with
      | false =>
          have h' : (announce_loop rest).2.2.1 = false := by
            simpa [announce_loop, hc] using h
          simp [announce_loop, hc, List.countP_cons, ih h']
      | true =>
          cases ha : s.accepts_candidature with
          | false => simp [announce_loop, hc, ha] at h
          | true =>
              have h' : (announce_loop rest).2.2.1 = false := by
                simpa [announce_loop, hc, ha] using h
              simp [announce_loop, hc, ha, List.countP_cons, ih h']

theorem probes_separated_sleep_cons (t : List ReconnectEvent) :
    probes_separated (ReconnectEvent.sleep_one_second :: t) =
      probes_separated t := rfl

theorem probes_separated_probe_sleep (t : List ReconnectEvent) :
    probes_separated
        (ReconnectEvent.probe :: ReconnectEvent.sleep_one_second :: t) =
      probes_separated t := rfl

theorem try_reconnect_from_spec (oracle : Nat → ReconnectAttempt) :
    ∀ (n i : Nat),
      count_probes (try_reconnect_from oracle i n).2.2 ≤ n ∧
      probes_separated (try_reconnect_from oracle i n).2.2 = true ∧
      (((try_reconnect_from oracle i n).1 = some ConnStatus.CONNECTION_OK ∧
        (try_reconnect_from oracle i n).2.1 = NodeStatus.NODE_STATUS_UP) ∨
       ((try_reconnect_from oracle i n).1 = none ∧
        (try_reconnect_from oracle i n).2.1 = NodeStatus.NODE_STATUS_DOWN ∧
        count_probes (try_reconnect_from oracle i n).2.2 = n))
  | 0, i => by simp [try_reconnect_from, count_probes, probes_separated]
  | n + 1, i => by
      have ih := try_reconnect_from_spec oracle n (i + 1)
      by_cases hs : (oracle i).server_available = true
      · by_cases hc : (oracle i).conn_ok = true
        · simp [try_reconnect_from, hs, hc, count_probes, probes_separated]
        · obtain ⟨ih1, ih2, ih3⟩ := ih
          simp only [try_reconnect_from, hs, if_true, hc, if_false,
                     count_probes, probes_separated_probe_sleep]
          refine ⟨by omega, ih2, ?_⟩
          rcases ih3 with h3 | ⟨h3a, h3b, h3c⟩
          · exact Or.inl h3
          · exact Or.inr ⟨h3a, h3b, by omega⟩
      · obtain ⟨ih1, ih2, ih3⟩ := ih
        simp only [try_reconnect_from, hs, if_false, count_probes,
                   probes_separated_probe_sleep]
        refine ⟨by omega, ih2, ?_⟩
        rcases ih3 with h3 | ⟨h3a, h3b, h3c⟩
        · exact Or.inl h3
        · exact Or.inr ⟨h3a, h3b, by omega⟩

/-! Claim theorems -/

/-- Claim C1 (code bug): poll_best_candidate does not return the node
that is maximal under the LSN, then priority, then lowest-node-id
ordering.  On a sibling list holding a single node with strictly lower
last_wal_receive_lsn but lower node_id than the local node, the
function returns that sibling, even though the local node is strictly
preferred under the spec ordering: in the source the node_id
comparison is an else-branch of the LSN comparison, so it fires
exactly when the sibling has the strictly lower LSN. -/
theorem poll_best_candidate_lsn_inversion :
    poll_best_candidate
        { node_id := 2, priority := 100, last_wal_receive_lsn := 10 }
        [{ node_id := 1, priority := 100, last_wal_receive_lsn := 5 }] =
      { node_id := 1, priority := 100, last_wal_receive_lsn := 5 } ∧
    spec_prefers
      { node_id := 2, priority := 100, last_wal_receive_lsn := 10 }
      (poll_best_candidate
        { node_id := 2, priority := 100, last_wal_receive_lsn := 10 }
        [{ node_id := 1, priority := 100, last_wal_receive_lsn := 5 }]) := by
  decide

/-- Claim C2 (counterexample): the claim says a failover_state of
PROMOTION_FAILED makes monitor_streaming_standby return control to the
Role Monitor; in the source that switch case only breaks, so the
monitor resumes its inner loop. -/
theorem failover_dispatch_promotion_failed_resumes :
    (failover_dispatch FailoverState.FAILOVER_STATE_PROMOTION_FAILED 1 2).action ≠
      DispatchAction.return_to_role_monitor := by
  decide

/-- Claim C2 (amended): of the three states named by the claim only
NO_NEW_PRIMARY makes the failover dispatch return control to the Role
Monitor; PROMOTION_FAILED merely breaks out of the switch and
FOLLOW_FAIL has no case at all, so for both the monitor resumes its
inner upstream-monitoring loop with failover_state unchanged. -/
theorem failover_dispatch_terminal_states (local_node_id upstream_node_id : Int) :
    (failover_dispatch FailoverState.FAILOVER_STATE_NO_NEW_PRIMARY
        local_node_id upstream_node_id).action =
      DispatchAction.return_to_role_monitor ∧
    (failover_dispatch FailoverState.FAILOVER_STATE_PROMOTION_FAILED
        local_node_id upstream_node_id).action =
      DispatchAction.resume_inner_loop ∧
    (failover_dispatch FailoverState.FAILOVER_STATE_PROMOTION_FAILED
        local_node_id upstream_node_id).failover_state =
      FailoverState.FAILOVER_STATE_PROMOTION_FAILED ∧
    (failover_dispatch FailoverState.FAILOVER_STATE_FOLLOW_FAIL
        local_node_id upstream_node_id).action =
      DispatchAction.resume_inner_loop ∧
    (failover_dispatch FailoverState.FAILOVER_STATE_FOLLOW_FAIL
        local_node_id upstream_node_id).failover_state =
      FailoverState.FAILOVER_STATE_FOLLOW_FAIL :=
  ⟨rfl, rfl, rfl, rfl, rfl⟩

/-- Claim C3: in every election round that reaches the vote-request
phase (own voting status is not VOTE_REQUEST_RECEIVED, the refreshed
sibling list is non-empty, and no sibling declared itself candidate
during the announcement loop), do_election adds the self-vote exactly
when no visible sibling reports a last_wal_receive_lsn strictly above
the local node's; visible_nodes is one (the local node) plus the
number of siblings whose candidature announcement succeeded; and the
result is WON if and only if votes_for_me equals visible_nodes,
otherwise LOST. -/
theorem do_election_vote_phase (inp : ElectionInput)
    (h1 : inp.voting_status ≠ NodeVotingStatus.VS_VOTE_REQUEST_RECEIVED)
    (h2 : inp.siblings ≠ [])
    (h3 : (announce_loop inp.siblings).2.2.1 = false) :
    ((do_election inp).self_vote = true ↔
      ∀ s ∈ (announce_loop inp.siblings).1, s.is_visible = true →
        s.last_wal_receive_lsn ≤ inp.local_lsn) ∧
    (do_election inp).votes_for_me =
      (do_election inp).sibling_votes +
        (if (do_election inp).self_vote then 1 else 0) ∧
    (do_election inp).visible_nodes =
      1 + List.countP (fun s => s.is_visible) (announce_loop inp.siblings).1 ∧
    ((do_election inp).result = ElectionResult.ELECTION_WON ↔
      (do_election inp).votes_for_me = (do_election inp).visible_nodes) ∧
    ((do_election inp).result = ElectionResult.ELECTION_LOST ↔
      (do_election inp).votes_for_me ≠ (do_election inp).visible_nodes) := by
  have hlen : ¬ inp.siblings.length = 0 := by
    simpa [List.length_eq_zero] using h2
  simp only [do_election, if_neg h1, if_neg hlen, h3, Bool.false_eq_true,
             if_false]
  refine ⟨?_, ?_, ?_, ?_, ?_⟩
  · simpa [Bool.not_eq_true'] using
      vote_loop_ahead_iff inp.local_lsn (announce_loop inp.siblings).1
  · trivial
  · simp [announce_loop_visible_count inp.siblings h3]
  · split <;> simp_all
  · split <;> simp_all

/-- Claim C3 witness: a concrete round with one reachable, accepting,
vote-granting sibling that is behind on WAL; the round is WON. -/
theorem do_election_vote_phase_witness :
    (do_election
      { voting_status := NodeVotingStatus.VS_NO_VOTE,
        siblings := [{ node_id := 3, priority := 100, last_wal_receive_lsn := 5 }],
        local_lsn := 10 }).result = ElectionResult.ELECTION_WON :=
  (do_election_vote_phase
      { voting_status := NodeVotingStatus.VS_NO_VOTE,
        siblings := [{ node_id := 3, priority := 100, last_wal_receive_lsn := 5 }],
        local_lsn := 10 }
      (by decide) (by decide) (by decide)).2.2.2.1.mpr (by decide)

/-- Claim C4 (code bug): after claiming candidacy via
set_voting_status_initiated, when a sibling reports itself as
candidate, do_election returns ELECTION_NOT_CANDIDATE without any
reset of its own voting status: the unset_voting_status_initiated call
is commented out in the source (marked XXX). -/
theorem do_election_withdrawal_skips_reset :
    (do_election
      { voting_status := NodeVotingStatus.VS_NO_VOTE,
        siblings := [{ node_id := 3, priority := 100, last_wal_receive_lsn := 0,
                       conn_ok := true, accepts_candidature := false }],
        local_lsn := 0 }).result = ElectionResult.ELECTION_NOT_CANDIDATE ∧
    (do_election
      { voting_status := NodeVotingStatus.VS_NO_VOTE,
        siblings := [{ node_id := 3, priority := 100, last_wal_receive_lsn := 0,
                       conn_ok := true, accepts_candidature := false }],
        local_lsn := 0 }).claimed_candidacy = true ∧
    (do_election
      { voting_status := NodeVotingStatus.VS_NO_VOTE,
        siblings := [{ node_id := 3, priority := 100, last_wal_receive_lsn := 0,
                       conn_ok := true, accepts_candidature := false }],
        local_lsn := 0 }).reset_voting_status_called = false := by
  decide

/-- Claim C5 (counterexample): the claim states that every non-zero
promote-command exit yields either PRIMARY_REAPPEARED with an abort
event or PROMOTION_FAILED; but when the local connection has dropped
and cannot be re-established, promote_self returns LOCAL_NODE_FAILURE
before consulting get_primary_connection, even though the discovered
primary would have been reachable with the failed upstream's id. -/
theorem promote_self_dead_local_conn_overrides :
    (promote_self
      { promote_command_exit := 1,
        local_conn_status_after := ConnStatus.CONNECTION_BAD,
        reconnect_status := ConnStatus.CONNECTION_BAD,
        discovered_primary_conn_status := ConnStatus.CONNECTION_OK,
        discovered_primary_node_id := 1,
        failed_primary_node_id := 1 }).state =
      FailoverState.FAILOVER_STATE_LOCAL_NODE_FAILURE ∧
    (promote_self
      { promote_command_exit := 1,
        local_conn_status_after := ConnStatus.CONNECTION_BAD,
        reconnect_status := ConnStatus.CONNECTION_BAD,
        discovered_primary_conn_status := ConnStatus.CONNECTION_OK,
        discovered_primary_node_id := 1,
        failed_primary_node_id := 1 }).events = [] := by
  decide

/-- Claim C5 (amended): when the promote command exits non-zero and
the local connection is live after the command or successfully
re-established, promote_self returns PRIMARY_REAPPEARED and records
exactly a repmgrd_failover_abort event if and only if
get_primary_connection yields a CONNECTION_OK connection whose primary
node id equals the failed upstream's node id; in every other such case
it returns PROMOTION_FAILED and records no event. -/
theorem promote_self_nonzero_exit (inp : PromoteInput)
    (hconn : inp.local_conn_status_after = ConnStatus.CONNECTION_OK ∨
             inp.reconnect_status = ConnStatus.CONNECTION_OK)
    (hexit : inp.promote_command_exit ≠ 0) :
    (((promote_self inp).state =
        FailoverState.FAILOVER_STATE_PRIMARY_REAPPEARED ∧
      (promote_self inp).events = [EventName.repmgrd_failover_abort]) ↔
     (inp.discovered_primary_conn_status = ConnStatus.CONNECTION_OK ∧
      inp.discovered_primary_node_id = inp.failed_primary_node_id)) ∧
    (¬(inp.discovered_primary_conn_status = ConnStatus.CONNECTION_OK ∧
       inp.discovered_primary_node_id = inp.failed_primary_node_id) →
     (promote_self inp).state =
        FailoverState.FAILOVER_STATE_PROMOTION_FAILED ∧
     (promote_self inp).events = []) := by
  have hok : (if inp.local_conn_status_after ≠ ConnStatus.CONNECTION_OK then
      inp.reconnect_status else inp.local_conn_status_after) =
      ConnStatus.CONNECTION_OK := by
    rcases hconn with h | h
    · simp [h]
    · cases hl : inp.local_conn_status_after <;> simp [h]
  by_cases hpc : inp.discovered_primary_conn_status = ConnStatus.CONNECTION_OK ∧
      inp.discovered_primary_node_id = inp.failed_primary_node_id
  · simp [promote_self, hok, hexit, hpc]
  · simp [promote_self, hok, hexit, hpc]

/-- Claim C5 witness: a concrete non-zero exit with the local
connection intact and the original primary rediscovered under the
failed upstream's id gives PRIMARY_REAPPEARED. -/
theorem promote_self_nonzero_exit_witness :
    (promote_self
      { promote_command_exit := 1,
        local_conn_status_after := ConnStatus.CONNECTION_OK,
        reconnect_status := ConnStatus.CONNECTION_OK,
        discovered_primary_conn_status := ConnStatus.CONNECTION_OK,
        discovered_primary_node_id := 5,
        failed_primary_node_id := 5 }).state =
      FailoverState.FAILOVER_STATE_PRIMARY_REAPPEARED :=
  ((promote_self_nonzero_exit
      { promote_command_exit := 1,
        local_conn_status_after := ConnStatus.CONNECTION_OK,
        reconnect_status := ConnStatus.CONNECTION_OK,
        discovered_primary_conn_status := ConnStatus.CONNECTION_OK,
        discovered_primary_node_id := 5,
        failed_primary_node_id := 5 }
      (Or.inl rfl) (by decide)).1.mpr (by decide)).1

/-- Claim C6: for every oracle, try_reconnect issues at most
max_attempts = 5 liveness probes, no two of them adjacent (every pair
of consecutive probes is separated by a sleep(1)), and it returns
either a CONNECTION_OK handle with node status UP, or a null handle
with node status DOWN after all max_attempts probes were issued; no
other outcome is possible. -/
theorem try_reconnect_bounded (oracle : Nat → ReconnectAttempt) :
    count_probes (try_reconnect oracle).2.2 ≤ max_attempts ∧
    probes_separated (try_reconnect oracle).2.2 = true ∧
    (((try_reconnect oracle).1 = some ConnStatus.CONNECTION_OK ∧
      (try_reconnect oracle).2.1 = NodeStatus.NODE_STATUS_UP) ∨
     ((try_reconnect oracle).1 = none ∧
      (try_reconnect oracle).2.1 = NodeStatus.NODE_STATUS_DOWN ∧
      count_probes (try_reconnect oracle).2.2 = max_attempts)) :=
  try_reconnect_from_spec oracle max_attempts 0

/-- Claim C7: the jitter sleep at the start of do_election always lasts
between 100 ms (100000 microseconds) and 600 ms (600000 microseconds),
for every value the random computation can produce. -/
theorem rand_wait_bounds (r : Nat) :
    100000 ≤ rand_wait r ∧ rand_wait r ≤ 600000 := by
  have h : r % 50 < 50 := Nat.mod_lt r (by norm_num)
  unfold rand_wait
  omega

/-- Claim C8: when do_election reaches the sibling refresh (own voting
status is not VOTE_REQUEST_RECEIVED) and the refreshed sibling list is
empty, it returns ELECTION_WON immediately with no peer connection
opened, no candidature announced and no vote requested. -/
theorem do_election_no_siblings (inp : ElectionInput)
    (h1 : inp.voting_status ≠ NodeVotingStatus.VS_VOTE_REQUEST_RECEIVED)
    (h2 : inp.siblings = []) :
    (do_election inp).result = ElectionResult.ELECTION_WON ∧
    (do_election inp).peer_ops = [] := by
  simp [do_election, h1, h2]

/-- Claim C8 witness: the empty-sibling election at a concrete input. -/
theorem do_election_no_siblings_witness :
    (do_election { voting_status := NodeVotingStatus.VS_NO_VOTE,
                   siblings := [], local_lsn := 0 }).result =
      ElectionResult.ELECTION_WON ∧
    (do_election { voting_status := NodeVotingStatus.VS_NO_VOTE,
                   siblings := [], local_lsn := 0 }).peer_ops = [] :=
  do_election_no_siblings
    { voting_status := NodeVotingStatus.VS_NO_VOTE,
      siblings := [], local_lsn := 0 } (by decide) rfl

/-- Claim C9: the failover switch has no case for
NODE_NOTIFICATION_ERROR or FOLLOW_FAIL: for either value the standby
monitor neither returns to the Role Monitor nor invokes
notify_followers, and failover_state keeps the same value while the
inner upstream-monitoring loop resumes. -/
theorem failover_dispatch_missing_cases (local_node_id upstream_node_id : Int) :
    (failover_dispatch FailoverState.FAILOVER_STATE_NODE_NOTIFICATION_ERROR
        local_node_id upstream_node_id) =
      { action := DispatchAction.resume_inner_loop,
        failover_state := FailoverState.FAILOVER_STATE_NODE_NOTIFICATION_ERROR,
        notify_followers_target := none } ∧
    (failover_dispatch FailoverState.FAILOVER_STATE_FOLLOW_FAIL
        local_node_id upstream_node_id) =
      { action := DispatchAction.resume_inner_loop,
        failover_state := FailoverState.FAILOVER_STATE_FOLLOW_FAIL,
        notify_followers_target := none } :=
  ⟨rfl, rfl⟩

/-- Claim C10: every iteration of the Role Monitor's outer loop runs
reset_node_voting_status before dispatching on the node's role; that
call unconditionally sets failover_state to FAILOVER_STATE_NONE and
issues the database-side reset_voting_status exactly when the local
connection has status CONNECTION_OK. -/
theorem start_monitoring_resets_voting_status (cs : ConnStatus) (t : NodeType) :
    (start_monitoring_iteration cs t).1 = reset_node_voting_status cs ∧
    (start_monitoring_iteration cs t).1.failover_state =
      FailoverState.FAILOVER_STATE_NONE ∧
    ((start_monitoring_iteration cs t).1.db_reset_issued = true ↔
      cs = ConnStatus.CONNECTION_OK) := by
  cases cs <;> cases t <;>
    simp [start_monitoring_iteration, reset_node_voting_status]

end Repmgrd
